import Mathlib

/-!
Verification of the jobscrapper inference pipeline
(structured extraction → deterministic rules → classification ensemble →
consensus), shallowly embedded from the Python sources:

  * `agent/nodes/summarizer.py` (extraction stage)
  * `agent/nodes/analyzer.py` and `src/agent/nodes/analyzer.py`
    (deterministic rule engine, text fallback, ensemble member)
  * `agent/graph.py` (ensemble fan-in, majority vote, pipeline wiring)
  * `infra/llm_client.py` (retry/backoff policy)

The repository contains two pipeline generations: the "entry-level" variant
(boolean `entry_level` / `is_internship` fields, `agent/` tree) and the
"job-level" variant (ordered categorical `job_level` field, `src/` tree).
Definitions for the former carry the suffix `_E`, the latter `_J`.

LLM calls are I/O; they are modelled as oracle inputs (`Except`-valued
outcomes supplied to the node functions).  Everything downstream of an
oracle outcome is transcribed from the source.
-/

namespace JobScraper

/-! ### Strings: Python `in` (substring) and `.lower()` -/

instance {ε α : Type _} [DecidableEq ε] [DecidableEq α] :
    DecidableEq (Except ε α) := fun x y =>
  match x, y with
  | .ok a, .ok b =>
    if h : a = b then isTrue (by rw [h])
    else isFalse fun hc => h (by cases hc; rfl)
  | .ok _, .error _ => isFalse fun hc => by cases hc
  | .error _, .ok _ => isFalse fun hc => by cases hc
  | .error a, .error b =>
    if h : a = b then isTrue (by rw [h])
    else isFalse fun hc => h (by cases hc; rfl)

/-- `seqStarts hay needle`: `needle` is a leading segment of `hay`. -/
def seqStarts : List Char → List Char → Bool
  | _, [] => true
  | [], _ :: _ => false
  | a :: as, b :: bs => a == b && seqStarts as bs

/-- `seqContains hay needle`: `needle` occurs contiguously in `hay`. -/
def seqContains : List Char → List Char → Bool
  | [], needle => needle.isEmpty
  | a :: as, needle => seqStarts (a :: as) needle || seqContains as needle

/-- Python `needle in haystack` on strings. -/
def strContains (haystack needle : String) : Bool :=
  seqContains haystack.data needle.data

/-- Python `s.lower()` (ASCII case folding, as used by the rule engine). -/
def strLower (s : String) : String :=
  ⟨s.data.map Char.toLower⟩

/-! ### StructuredSummary (`infra/models.py`, `JobSummaryModel`)

Fields that the rule engine reads through `dict.get` with a `None` guard
are modelled as `Option`; `years_experience_required : Optional[int]`. -/

structure StructuredSummary where
  title_normalized : Option String
  role_type : String
  seniority_level : Option String
  years_experience_required : Option Int
  education_required : String
  visa_statements : List String
  is_internship_coop : Bool
  description_summary : String
deriving Repr, DecidableEq

/-- Denial phrases of `_deterministic_eval` (identical in both variants). -/
def denial_phrases : List String :=
  ["must be", "no visa", "without sponsorship",
   "u.s. person", "us citizen", "u.s. citizen",
   "without the need for", "not available"]

/-- `visa_sponsorship` rule shared by both `_deterministic_eval` variants:
empty list → `true`; otherwise `false` iff some statement (lowercased)
contains a denial phrase. -/
def visaRule (visa : List String) : Bool :=
  if visa.isEmpty then true
  else !(visa.any fun stmt => denial_phrases.any fun d => strContains (strLower stmt) d)

/-- Title keywords of the internship check (both variants). -/
def intern_words : List String :=
  ["intern", "internship", "co-op", "fellowship", "apprenticeship"]

/-! ### Deterministic rule engine, entry-level variant
(`agent/nodes/analyzer.py`, `_deterministic_eval`, lines 16–62).
`none` = Python `None` = "undecided, left to the LLM ensemble". -/

structure DetEvalE where
  visa_sponsorship : Option Bool
  is_internship : Option Bool
  requires_phd : Option Bool
  entry_level : Option Bool
  keyword_match : Option Bool
deriving Repr, DecidableEq

def senior_levels_E : List String :=
  ["mid", "senior", "lead", "staff", "principal", "director", "vp"]

def _deterministic_eval_E (summary : StructuredSummary)
    (_search_terms : List String) : DetEvalE :=
  let visa_sponsorship := visaRule summary.visa_statements
  -- is_internship: summary flag OR title keyword
  let title := strLower (summary.title_normalized.getD "")
  let is_internship :=
    summary.is_internship_coop || intern_words.any fun w => strContains title w
  let requires_phd := summary.education_required == "phd"
  -- entry_level: deterministic for clear cases
  let years := summary.years_experience_required
  let seniority := summary.seniority_level.getD "unknown"
  let entry_level : Option Bool :=
    if senior_levels_E.contains seniority then some false
    else if (match years with | some y => decide (y ≥ 2) | none => false) then some false
    else if (seniority == "entry" || seniority == "intern")
        && (match years with | none => true | some y => decide (y ≤ 1)) then some true
    else none
  { visa_sponsorship := some visa_sponsorship,
    is_internship := some is_internship,
    requires_phd := some requires_phd,
    entry_level := entry_level,
    keyword_match := none }

/-! ### Deterministic rule engine, job-level variant
(`src/agent/nodes/analyzer.py`, `_deterministic_eval`, lines 36–97).
Job levels are the strings of `JOB_LEVELS`, ordered most junior first. -/

def JOB_LEVELS : List String := ["internship", "entry", "junior", "mid", "senior"]

/-- `JOB_LEVELS.index lvl` (5 for a string outside the enumeration). -/
def levelRank (lvl : String) : Nat :=
  if lvl == "internship" then 0
  else if lvl == "entry" then 1
  else if lvl == "junior" then 2
  else if lvl == "mid" then 3
  else if lvl == "senior" then 4
  else 5

structure DetEvalJ where
  visa_sponsorship : Option Bool
  requires_phd : Option Bool
  keyword_match : Option Bool
  job_level : Option String
deriving Repr, DecidableEq

def senior_explicit_J : List String :=
  ["senior", "lead", "staff", "principal", "director", "vp"]

def _deterministic_eval_J (summary : StructuredSummary)
    (_search_terms : List String) : DetEvalJ :=
  let visa_sponsorship := visaRule summary.visa_statements
  let requires_phd := summary.education_required == "phd"
  let title := strLower (summary.title_normalized.getD "")
  if summary.is_internship_coop || intern_words.any (fun w => strContains title w) then
    -- internship short-circuits the rest of the job-level rules
    { visa_sponsorship := some visa_sponsorship,
      requires_phd := some requires_phd,
      keyword_match := none,
      job_level := some "internship" }
  else
    -- Python `(summary.get("seniority_level") or "unknown").lower()`
    let seniority := strLower (match summary.seniority_level with
      | none => "unknown"
      | some s => if s == "" then "unknown" else s)
    let years := summary.years_experience_required
    let job_level : Option String :=
      if senior_explicit_J.contains seniority then some "senior"
      else if seniority == "mid" then some "mid"
      else
        match years with
        | some y =>
          if y ≥ 5 then some "senior"
          else if y ≥ 3 then some "mid"
          else if y ≥ 1 then some "junior"
          else some "entry"
        | none =>
          if seniority == "entry" then some "entry"
          else if seniority == "junior" then some "junior"
          else none
    { visa_sponsorship := some visa_sponsorship,
      requires_phd := some requires_phd,
      keyword_match := none,
      job_level := job_level }

/-! ### Ensemble votes and majority-vote aggregation

`BOOLEAN_FIELDS` of `agent/graph.py` (entry-level variant):
keyword_match, visa_sponsorship, entry_level, requires_phd, is_internship.
`BOOLEAN_FIELDS` of `src/agent/nodes/analyzer.py` (job-level variant):
keyword_match, visa_sponsorship, requires_phd; the categorical `job_level`
is voted separately. -/

/-- One ensemble member's evaluation dict, entry-level variant
(`infra/models.py` `JobEvaluation.model_dump()` or the text fallback). -/
structure VoteE where
  keyword_match : Bool
  visa_sponsorship : Bool
  entry_level : Bool
  requires_phd : Bool
  is_internship : Bool
  reason : String
deriving Repr, DecidableEq

/-- One ensemble member's evaluation dict, job-level variant.  `job_level`
is the raw string from the dict (`r.get("job_level", "entry")`); it may lie
outside `JOB_LEVELS`, in which case the vote counter ignores it. -/
structure VoteJ where
  keyword_match : Bool
  visa_sponsorship : Bool
  job_level : String
  requires_phd : Bool
  reason : String
deriving Repr, DecidableEq

/-- Python `true_votes > (total / 2)` — a float comparison over exact small
integers; `t > n / 2` over the reals is equivalent to `2 * t > n` over `ℕ`
(the equivalence with the rational comparison is proved in
`majorityBool_iff_half`). -/
def majorityBool (true_votes total : Nat) : Bool :=
  decide (2 * true_votes > total)

/-- Consensus dict of `_majority_vote_evaluation` in `agent/graph.py`
(before reason/title/company are attached). -/
structure EvalE where
  keyword_match : Bool
  visa_sponsorship : Bool
  entry_level : Bool
  requires_phd : Bool
  is_internship : Bool
deriving Repr, DecidableEq

/-- `_majority_vote_evaluation` (`agent/graph.py`, lines 37–45): each
boolean field is true iff its true-vote count beats `total / 2`. -/
def _majority_vote_evaluation_E (results : List VoteE) : EvalE :=
  let total := results.length
  { keyword_match := majorityBool (results.countP (·.keyword_match)) total,
    visa_sponsorship := majorityBool (results.countP (·.visa_sponsorship)) total,
    entry_level := majorityBool (results.countP (·.entry_level)) total,
    requires_phd := majorityBool (results.countP (·.requires_phd)) total,
    is_internship := majorityBool (results.countP (·.is_internship)) total }

/-- Number of votes for level `lvl` — the count stored under key `lvl` in
the Python `level_votes` dict (for `lvl ∈ JOB_LEVELS`). -/
def levelCount (results : List VoteJ) (lvl : String) : Nat :=
  results.countP (·.job_level == lvl)

/-- Categorical vote of `_majority_vote_evaluation`
(`src/agent/nodes/analyzer.py`, lines 153–163).

The Python code collects counts of valid levels into `level_votes` and takes
`max(level_votes or {"entry": 1}, key=lambda lvl: (count, -index))`.  The key
tuples are pairwise distinct (distinct levels have distinct indices), so the
`max` is the unique argmax over the dict's keys of (count, -rank).  When some
valid vote exists, every key has count ≥ 1 while absent levels count 0, so
this equals the lowest-rank level of maximal count over all of `JOB_LEVELS`;
the fold below returns exactly that (a later level replaces the current best
only on a strictly larger count).  With no valid vote the dict defaults to
`{"entry": 1}` and the result is `"entry"`. -/
def majorityJobLevel (results : List VoteJ) : String :=
  if results.any (fun r => JOB_LEVELS.contains r.job_level) then
    JOB_LEVELS.foldl
      (fun best lvl => if levelCount results lvl > levelCount results best then lvl else best)
      "internship"
  else "entry"

/-- Consensus dict of `_majority_vote_evaluation` in
`src/agent/nodes/analyzer.py` (lines 139–165). -/
structure EvalJ where
  keyword_match : Bool
  visa_sponsorship : Bool
  requires_phd : Bool
  job_level : String
deriving Repr, DecidableEq

def _majority_vote_evaluation_J (results : List VoteJ) : EvalJ :=
  let total := results.length
  { keyword_match := majorityBool (results.countP (·.keyword_match)) total,
    visa_sponsorship := majorityBool (results.countP (·.visa_sponsorship)) total,
    requires_phd := majorityBool (results.countP (·.requires_phd)) total,
    job_level := majorityJobLevel results }

/-! ### Representative justification (`_pick_closest_reason`) -/

/-- Python `min(results, key=distance)`: first element of minimal key. -/
def minBy (f : α → Nat) : List α → Option α
  | [] => none
  | x :: xs => some (xs.foldl (fun best y => if f y < f best then y else best) x)

/-- Hamming distance over the five boolean fields (`agent/graph.py` 49–53). -/
def distE (evaluation : EvalE) (r : VoteE) : Nat :=
  (if r.keyword_match != evaluation.keyword_match then 1 else 0) +
  (if r.visa_sponsorship != evaluation.visa_sponsorship then 1 else 0) +
  (if r.entry_level != evaluation.entry_level then 1 else 0) +
  (if r.requires_phd != evaluation.requires_phd then 1 else 0) +
  (if r.is_internship != evaluation.is_internship then 1 else 0)

def _pick_closest_reason_E (results : List VoteE) (evaluation : EvalE) : String :=
  ((minBy (distE evaluation) results).map (·.reason)).getD ""

/-- Hamming distance over the three boolean fields
(`src/agent/nodes/analyzer.py` 170–174). -/
def distJ (evaluation : EvalJ) (r : VoteJ) : Nat :=
  (if r.keyword_match != evaluation.keyword_match then 1 else 0) +
  (if r.visa_sponsorship != evaluation.visa_sponsorship then 1 else 0) +
  (if r.requires_phd != evaluation.requires_phd then 1 else 0)

def _pick_closest_reason_J (results : List VoteJ) (evaluation : EvalJ) : String :=
  ((minBy (distJ evaluation) results).map (·.reason)).getD ""

/-! ### Deterministic override (`for field, value in deterministic.items():
if value is not None: evaluation[field] = value`) -/

def applyOverridesE (evaluation : EvalE) (det : DetEvalE) : EvalE :=
  { keyword_match := det.keyword_match.getD evaluation.keyword_match,
    visa_sponsorship := det.visa_sponsorship.getD evaluation.visa_sponsorship,
    entry_level := det.entry_level.getD evaluation.entry_level,
    requires_phd := det.requires_phd.getD evaluation.requires_phd,
    is_internship := det.is_internship.getD evaluation.is_internship }

def applyOverridesJ (evaluation : EvalJ) (det : DetEvalJ) : EvalJ :=
  { keyword_match := det.keyword_match.getD evaluation.keyword_match,
    visa_sponsorship := det.visa_sponsorship.getD evaluation.visa_sponsorship,
    requires_phd := det.requires_phd.getD evaluation.requires_phd,
    job_level := det.job_level.getD evaluation.job_level }

/-! ### Text-mode fallback (`_parse_text_fallback`)

`repair_json` + `json.loads` + field extraction act on the raw response
text; the parse outcome is supplied as an oracle input: `some r` when the
repaired text parsed into a JSON object (with the fields the code reads via
`result.get`, each `Option` because the key may be absent), `none` when
`json.loads` raised. -/

/-- Parsed JSON fields read by the entry-level fallback. -/
structure ParsedEvalE where
  keyword_match : Option Bool
  visa_sponsorship : Option Bool
  entry_level : Option Bool
  requires_phd : Option Bool
  is_internship : Option Bool
  reason : Option String
deriving Repr, DecidableEq

/-- `_parse_text_fallback` (`agent/nodes/analyzer.py`, lines 65–92). -/
def _parse_text_fallback_E (parsed : Option ParsedEvalE) : VoteE :=
  match parsed with
  | some r =>
    { keyword_match := r.keyword_match.getD true,
      visa_sponsorship := r.visa_sponsorship.getD true,
      entry_level := r.entry_level.getD true,
      requires_phd := r.requires_phd.getD false,
      is_internship := r.is_internship.getD false,
      reason := r.reason.getD "" }
  | none =>
    { keyword_match := true,
      visa_sponsorship := true,
      entry_level := true,
      requires_phd := false,
      is_internship := false,
      reason := "JSON parse error - defaulting to pass" }

/-- Parsed JSON fields read by the job-level fallback. -/
structure ParsedEvalJ where
  keyword_match : Option Bool
  visa_sponsorship : Option Bool
  job_level : Option String
  requires_phd : Option Bool
  reason : Option String
deriving Repr, DecidableEq

/-- `_parse_text_fallback` (`src/agent/nodes/analyzer.py`, lines 100–128);
`job_level` is validated against `JOB_LEVELS` and defaults to `"entry"`. -/
def _parse_text_fallback_J (parsed : Option ParsedEvalJ) : VoteJ :=
  match parsed with
  | some r =>
    let raw_level := r.job_level.getD "entry"
    { keyword_match := r.keyword_match.getD true,
      visa_sponsorship := r.visa_sponsorship.getD true,
      job_level := if JOB_LEVELS.contains raw_level then raw_level else "entry",
      requires_phd := r.requires_phd.getD false,
      reason := r.reason.getD "" }
  | none =>
    { keyword_match := true,
      visa_sponsorship := true,
      job_level := "entry",
      requires_phd := false,
      reason := "JSON parse error - defaulting to pass" }

/-! ### One ensemble member (`_call_llm_analyzer`, `agent/nodes/analyzer.py`
lines 95–144).  Oracle inputs: the `complete_structured` outcome, and the
`complete_text`-plus-parse outcome (`.error` when `complete_text` itself
raised `LLMClientError`; `.ok parsed` when it returned text, with `parsed`
the JSON-repair parse result fed to `_parse_text_fallback`). -/

def _call_llm_analyzer_E (structuredR : Except String VoteE)
    (textR : Except String (Option ParsedEvalE)) : Except String VoteE :=
  match structuredR with
  | .ok v => .ok v
  | .error _ =>
    match textR with
    | .ok parsed => .ok (_parse_text_fallback_E parsed)
    | .error e => .error e

/-! ### Pipeline state and nodes (`agent/state.py`, `agent/graph.py`,
`agent/nodes/summarizer.py`) -/

/-- Raw posting dict: the keys the pipeline reads, `Option` = key absent
(or `None`/NaN for the description, which `_safe_str` maps to `""`). -/
structure Job where
  title : Option String
  company : Option String
  description : Option String
deriving Repr, DecidableEq

/-- `f"{job_title} @ {company}"` after the `.get(..., "Unknown")` defaults. -/
def jobContext (job : Job) : String :=
  job.title.getD "Unknown" ++ " @ " ++ job.company.getD "Unknown"

/-- Consensus evaluation dict returned by the ensemble node (five booleans
plus reason/job_title/company). -/
structure ConsensusE where
  keyword_match : Bool
  visa_sponsorship : Bool
  entry_level : Bool
  requires_phd : Bool
  is_internship : Bool
  reason : String
  job_title : String
  company : String
deriving Repr, DecidableEq

/-- `JobState` TypedDict (`agent/state.py`). -/
structure JobState where
  job : Job
  search_terms : List String
  summary : Option StructuredSummary
  evaluation : Option ConsensusE
  accumulated_feedback : List String
  error : Option String
  skipped : Bool
deriving Repr, DecidableEq

/-- Partial state update returned by a node: `some` = key present in the
returned dict (LangGraph overwrites that channel), `none` = key absent. -/
structure NodeUpdate where
  summary : Option StructuredSummary := none
  evaluation : Option ConsensusE := none
  error : Option String := none
  skipped : Option Bool := none
deriving Repr, DecidableEq

/-- LangGraph channel merge: present keys overwrite, absent keys keep the
previous value. -/
def applyUpdate (s : JobState) (u : NodeUpdate) : JobState :=
  { s with
    summary := match u.summary with | some v => some v | none => s.summary,
    evaluation := match u.evaluation with | some v => some v | none => s.evaluation,
    error := match u.error with | some v => some v | none => s.error,
    skipped := u.skipped.getD s.skipped }

/-- Oracle for the summarizer's provider calls: the `complete_structured`
outcome, and the fallback chain outcome (`complete_text` + `repair_json` +
`json.loads` + `JobSummaryModel.model_validate`; `.error` carries `str(e)`
of whichever exception reached the outer handlers). -/
structure SummarizerOracle where
  structured : Except String StructuredSummary
  fallback : Except String StructuredSummary
deriving Repr

/-- `summarizer_node` (`agent/nodes/summarizer.py`, lines 25–93), paired
with the number of inference-provider calls issued (`complete_structured`
and `complete_text` attempts both count). -/
def summarizer_node (state : JobState) (oracle : SummarizerOracle) :
    NodeUpdate × Nat :=
  -- On redo passes, summary is already populated — skip re-extraction
  match state.summary with
  | some existing => ({ summary := some existing }, 0)
  | none =>
    -- Skip jobs with no/short description
    let desc := state.job.description.getD ""
    if desc == "" || desc.length < 50 then
      ({ skipped := some true,
         error := some ("Description too short (" ++ toString desc.length ++ " chars)") }, 0)
    else
      match oracle.structured with
      | .ok s => ({ summary := some s }, 1)
      | .error _ =>
        match oracle.fallback with
        | .ok s => ({ summary := some s }, 2)
        | .error e => ({ error := some e }, 2)

/-- Surviving ensemble members: the gathered outcomes with exceptions
logged and dropped (`agent/graph.py`, lines 87–92). -/
def survivingResults (raw : List (Except String VoteE)) : List VoteE :=
  raw.filterMap fun r => match r with | .ok v => some v | .error _ => none

/-- `ANALYZER_TEMPERATURES = [0.0, 0.0, 0.0]` — three ensemble members. -/
def ANALYZER_TEMPERATURES : List ℚ := [0, 0, 0]

/-- The ensemble node built by `_wrap_analyzer_ensemble` (`agent/graph.py`,
lines 59–118).  `raw` is the list of member outcomes produced by
`asyncio.gather(..., return_exceptions=True)` — one entry per temperature,
each member itself running `_call_llm_analyzer_E` (no retry around it). -/
def analyzerEnsembleNode (state : JobState)
    (raw : List (Except String VoteE)) : NodeUpdate :=
  match state.summary with
  | none => { error := some "No summary available for analysis" }
  | some summary =>
    let det := _deterministic_eval_E summary state.search_terms
    let analyzer_results := survivingResults raw
    if analyzer_results.isEmpty then
      { error := some ("All analyzer calls failed [" ++ jobContext state.job ++ "]") }
    else
      let evaluation := _majority_vote_evaluation_E analyzer_results
      let evaluation := applyOverridesE evaluation det
      { evaluation := some
          { keyword_match := evaluation.keyword_match,
            visa_sponsorship := evaluation.visa_sponsorship,
            entry_level := evaluation.entry_level,
            requires_phd := evaluation.requires_phd,
            is_internship := evaluation.is_internship,
            reason := _pick_closest_reason_E analyzer_results evaluation,
            job_title := state.job.title.getD "Unknown",
            company := state.job.company.getD "Unknown" } }

/-- Python truthiness of `state.get("error")`: present and non-empty. -/
def errorTruthy (e : Option String) : Bool :=
  match e with | some s => s != "" | none => false

/-- `route_after_summarize` (`agent/graph.py`, lines 121–125): `True` means
route to END, `False` means run the analyzer ensemble. -/
def routeToEnd (state : JobState) : Bool :=
  state.skipped || (errorTruthy state.error && state.summary.isNone)

/-- `run_single_job` + the compiled graph (`agent/graph.py`, lines 128–162):
initial state, summarizer, conditional edge, ensemble, END. -/
def runSingleJob (job : Job) (search_terms : List String)
    (accumulated_feedback : List String) (so : SummarizerOracle)
    (raw : List (Except String VoteE)) : JobState :=
  let s0 : JobState :=
    { job := job, search_terms := search_terms, summary := none,
      evaluation := none, accumulated_feedback := accumulated_feedback,
      error := none, skipped := false }
  let s1 := applyUpdate s0 (summarizer_node s0 so).1
  if routeToEnd s1 then s1
  else applyUpdate s1 (analyzerEnsembleNode s1 raw)

/-! ### Job-level consensus (`src/agent/nodes/analyzer.py`,
`AnalyzerNode.__call__`, lines 273–287): majority vote over the surviving
ensemble results, deterministic overrides, representative reason. -/

structure ConsensusJ where
  keyword_match : Bool
  visa_sponsorship : Bool
  requires_phd : Bool
  job_level : String
  reason : String
  job_title : String
  company : String
deriving Repr, DecidableEq

def analyzerNodeConsensus (summary : StructuredSummary)
    (search_terms : List String) (job : Job)
    (analyzer_results : List VoteJ) : ConsensusJ :=
  let deterministic := _deterministic_eval_J summary search_terms
  let evaluation := _majority_vote_evaluation_J analyzer_results
  let evaluation := applyOverridesJ evaluation deterministic
  { keyword_match := evaluation.keyword_match,
    visa_sponsorship := evaluation.visa_sponsorship,
    requires_phd := evaluation.requires_phd,
    job_level := evaluation.job_level,
    reason := _pick_closest_reason_J analyzer_results evaluation,
    job_title := job.title.getD "Unknown",
    company := job.company.getD "Unknown" }

/-! ### Provider retry policy (`infra/llm_client.py`)

`complete_structured` and `complete_text` run the same loop:
`for attempt in range(_MAX_RETRIES + 1)`, with rate-limit errors raised
immediately, transient 502/503/504 errors retried after
`_RETRY_BASE_DELAY * 2**attempt` seconds, and anything else (or an
exhausted budget) raised as a generic `LLMClientError`.  The outcome of
the i-th underlying API attempt is an oracle input `attempts i`
(`.ok` response or `.error str(e)`). -/

def _RETRYABLE_CODES : List String := ["502", "503", "504"]
def _MAX_RETRIES : Nat := 2

/-- `_RETRY_BASE_DELAY = 5.0` seconds; the delays
`_RETRY_BASE_DELAY * (2 ** attempt)` are exact integers, so they are
modelled in `ℕ`. -/
def _RETRY_BASE_DELAY : Nat := 5

/-- Error kinds of `LLMClientError`: the rate-limit raise carries the fixed
message "Rate limited (429)", the generic raise carries
"API request failed: {error_str}". -/
inductive LLMFailure where
  | rateLimited
  | apiFailed (msg : String)
deriving Repr, DecidableEq

/-- `"429" in error_str or "rate" in error_str.lower()`. -/
def isRateLimitError (e : String) : Bool :=
  strContains e "429" || strContains (strLower e) "rate"

/-- `_is_retryable` (`infra/llm_client.py`, lines 34–36). -/
def _is_retryable (e : String) : Bool :=
  _RETRYABLE_CODES.any fun code => strContains e code

/-- Result of one client call: the raised/returned value, the number of API
attempts made, and the backoff delays slept (in seconds). -/
structure CallTrace (α : Type) where
  result : Except LLMFailure α
  attemptsMade : Nat
  delays : List Nat

/-- The retry loop body, from attempt index `i` with `fuel` loop iterations
remaining (`fuel = _MAX_RETRIES + 1 - i`; the fuel-0 case is the
unreachable fall-through raise after the `for`). -/
def retryLoop (attempts : Nat → Except String α) : Nat → Nat → CallTrace α
  | _, 0 => ⟨.error (.apiFailed ("API request failed after " ++
      toString (_MAX_RETRIES + 1) ++ " attempts")), 0, []⟩
  | i, fuel + 1 =>
    match attempts i with
    | .ok a => ⟨.ok a, 1, []⟩
    | .error e =>
      if isRateLimitError e then
        -- Rate limit — don't retry, fail immediately
        ⟨.error .rateLimited, 1, []⟩
      else if _is_retryable e && decide (i < _MAX_RETRIES) then
        -- Transient server error — retry with backoff
        let t := retryLoop attempts (i + 1) fuel
        ⟨t.result, t.attemptsMade + 1, _RETRY_BASE_DELAY * 2 ^ i :: t.delays⟩
      else
        -- Non-retryable or retries exhausted
        ⟨.error (.apiFailed ("API request failed: " ++ e)), 1, []⟩

/-- `LLMClient.complete_structured` retry behaviour (lines 104–140). -/
def complete_structured (attempts : Nat → Except String α) : CallTrace α :=
  retryLoop attempts 0 (_MAX_RETRIES + 1)

/-- `LLMClient.complete_text` retry behaviour (lines 165–195): the loop is
identical to `complete_structured`'s. -/
def complete_text (attempts : Nat → Except String String) : CallTrace String :=
  retryLoop attempts 0 (_MAX_RETRIES + 1)

/-! ### Concrete fixtures for witnesses -/

/-- The spec's end-to-end example summary: senior, 8 years, explicit visa
denial, bachelors. -/
def exSummary : StructuredSummary :=
  ⟨some "Software Engineer", "swe", some "senior", some 8, "bachelors",
   ["No visa sponsorship available"], false, "s"⟩

def exJob : Job :=
  ⟨some "T", some "C", some "a sufficiently long description of the posting, over fifty chars"⟩

/-- An all-permissive ensemble vote (entry-level variant). -/
def exVoteE : VoteE := ⟨true, true, true, true, true, "all yes"⟩

/-- An all-true ensemble vote (job-level variant) voting `entry`. -/
def exVoteJ : VoteJ := ⟨true, true, "entry", true, "all yes"⟩

def exStateE : JobState :=
  ⟨exJob, ["software engineer"], some exSummary, none, [], none, false⟩

/-- Consensus the ensemble node produces from `exStateE` with the single
surviving vote `exVoteE`: the deterministic rules override visa
sponsorship and entry level to `false` despite the unanimous `true` vote. -/
def exConsensusE : ConsensusE :=
  ⟨true, false, false, false, false, "all yes", "T", "C"⟩

/-! ## Theorems -/

/-- Bridge from the integer comparison to "strictly more than half": the
Python float comparison `true_votes > total / 2` over exact rationals. -/
lemma majorityBool_iff_half (t n : ℕ) :
    majorityBool t n = true ↔ ((t : ℚ) > (n : ℚ) / 2) := by
  unfold majorityBool
  simp only [decide_eq_true_eq]
  constructor
  · intro h
    rw [gt_iff_lt, div_lt_iff₀ (by norm_num : (0 : ℚ) < 2)]
    exact_mod_cast (by omega : n < t * 2)
  · intro h
    rw [gt_iff_lt, div_lt_iff₀ (by norm_num : (0 : ℚ) < 2)] at h
    have hn : n < t * 2 := by exact_mod_cast h
    omega

/-- The job-level rule engine always reports `visaRule` for visa
sponsorship, in both the internship short-circuit and the general path. -/
lemma detJ_visa (summary : StructuredSummary) (ts : List String) :
    (_deterministic_eval_J summary ts).visa_sponsorship =
      some (visaRule summary.visa_statements) := by
  cases h : (summary.is_internship_coop || intern_words.any fun w =>
      strContains (strLower (summary.title_normalized.getD "")) w) <;>
    simp [_deterministic_eval_J, h]

lemma detE_visa (summary : StructuredSummary) (ts : List String) :
    (_deterministic_eval_E summary ts).visa_sponsorship =
      some (visaRule summary.visa_statements) := rfl

/-- `visaRule` on a non-empty list is `false` exactly when some statement
contains a denial phrase (case-insensitively). -/
lemma visaRule_nonempty (visa : List String) (h : visa ≠ []) :
    visaRule visa =
      !(visa.any fun stmt => denial_phrases.any fun d => strContains (strLower stmt) d) := by
  unfold visaRule
  rw [if_neg (by simpa [List.isEmpty_iff] using h)]

/-- C5: the deterministic rule engine resolves `visa_sponsorship` to `true`
when `visa_statements` is empty; when the list is non-empty it resolves it
to `false` iff some statement contains (case-insensitively) one of the
fixed denial phrases, and to `true` otherwise.  Both rule-engine variants
are covered. -/
theorem C5_visa_sponsorship_rule (summary : StructuredSummary) (ts : List String) :
    (summary.visa_statements = [] →
      (_deterministic_eval_J summary ts).visa_sponsorship = some true ∧
      (_deterministic_eval_E summary ts).visa_sponsorship = some true) ∧
    (summary.visa_statements ≠ [] →
      (((_deterministic_eval_J summary ts).visa_sponsorship = some false) ↔
        ∃ stmt ∈ summary.visa_statements, ∃ d ∈ denial_phrases,
          strContains (strLower stmt) d = true) ∧
      (((_deterministic_eval_J summary ts).visa_sponsorship = some true) ↔
        ¬ ∃ stmt ∈ summary.visa_statements, ∃ d ∈ denial_phrases,
          strContains (strLower stmt) d = true) ∧
      (_deterministic_eval_E summary ts).visa_sponsorship =
        (_deterministic_eval_J summary ts).visa_sponsorship) := by
  constructor
  · intro hemp
    rw [detJ_visa, detE_visa]
    simp [visaRule, hemp]
  · intro hne
    rw [detJ_visa, detE_visa, visaRule_nonempty _ hne]
    refine ⟨?_, ?_, rfl⟩
    · simp [List.any_eq_true]
    · simp [List.any_eq_true]

/-- C5 witness: the end-to-end denial example from the spec, and the empty
list default. -/
theorem C5_visa_sponsorship_rule_witness :
    (_deterministic_eval_J
      ⟨some "Software Engineer", "swe", some "senior", some 8, "bachelors",
        ["No visa sponsorship available"], false, "s"⟩
      ["software engineer"]).visa_sponsorship = some false ∧
    (_deterministic_eval_E
      ⟨some "Software Engineer", "swe", some "entry", none, "bachelors",
        [], false, "s"⟩ []).visa_sponsorship = some true := by
  constructor
  · exact ((C5_visa_sponsorship_rule _ _).2 (by decide)).1.mpr
      ⟨"No visa sponsorship available", by decide, "no visa", by decide, by decide⟩
  · exact ((C5_visa_sponsorship_rule
      ⟨some "Software Engineer", "swe", some "entry", none, "bachelors",
        [], false, "s"⟩ []).1 rfl).2

/-- C7: when the pipeline state already carries a summary, the summarizer
issues zero provider calls, returns exactly the existing summary, and the
merged state's summary is unchanged. -/
theorem C7_idempotent_extraction (state : JobState) (oracle : SummarizerOracle)
    (s : StructuredSummary) (h : state.summary = some s) :
    summarizer_node state oracle = ({ summary := some s }, 0) ∧
    (applyUpdate state (summarizer_node state oracle).1).summary = state.summary := by
  have h1 : summarizer_node state oracle = ({ summary := some s }, 0) := by
    unfold summarizer_node
    rw [h]
  refine ⟨h1, ?_⟩
  rw [h1, h]
  rfl

/-- C7 witness at a concrete redo-pass state. -/
theorem C7_idempotent_extraction_witness :
    summarizer_node
      ⟨⟨some "T", some "C", some "d"⟩, ["x"], some
        ⟨some "t", "r", some "entry", none, "none", [], false, "s"⟩,
        none, [], none, false⟩
      ⟨.error "boom", .error "boom"⟩ =
      ({ summary := some ⟨some "t", "r", some "entry", none, "none", [], false, "s"⟩ }, 0) :=
  (C7_idempotent_extraction _ _ _ rfl).1

/-- C6: on a fresh state (no summary yet), a description that is absent or
shorter than 50 characters takes the skip branch: the node returns
`skipped` together with the descriptive error message and issues zero
provider calls, and the merged state routes to END.  A description of
length ≥ 50 never takes the skip branch. -/
theorem C6_extraction_skip_condition (state : JobState) (oracle : SummarizerOracle)
    (hsum : state.summary = none) :
    ((state.job.description.getD "").length < 50 →
      summarizer_node state oracle =
        ({ skipped := some true,
           error := some ("Description too short (" ++
             toString (state.job.description.getD "").length ++ " chars)") }, 0) ∧
      routeToEnd (applyUpdate state (summarizer_node state oracle).1) = true) ∧
    (50 ≤ (state.job.description.getD "").length →
      (summarizer_node state oracle).1.skipped = none) := by
  constructor
  · intro h50
    have hnode : summarizer_node state oracle =
        ({ skipped := some true,
           error := some ("Description too short (" ++
             toString (state.job.description.getD "").length ++ " chars)") }, 0) := by
      unfold summarizer_node
      rw [hsum]
      rw [if_pos]
      simp [h50]
    refine ⟨hnode, ?_⟩
    rw [hnode]
    simp [routeToEnd, applyUpdate]
  · intro h50
    unfold summarizer_node
    rw [hsum]
    rw [if_neg]
    · obtain ⟨st, fb⟩ := oracle
      cases st <;> cases fb <;> rfl
    · intro hcond
      rcases Bool.or_eq_true_iff.mp hcond with hc | hc
      · have : state.job.description.getD "" = "" := by
          simpa using hc
        rw [this] at h50
        simp at h50
      · have := of_decide_eq_true hc
        omega

/-- C6 witness: a 5-character description skips with zero calls; a
60-character description does not take the skip branch. -/
theorem C6_extraction_skip_condition_witness :
    summarizer_node
      ⟨⟨some "T", some "C", some "short"⟩, ["x"], none, none, [], none, false⟩
      ⟨.error "x", .error "y"⟩ =
      ({ skipped := some true, error := some "Description too short (5 chars)" }, 0) ∧
    (summarizer_node
      ⟨⟨some "T", some "C",
        some "aaaaaaaaaaaaaaaaaaaaaaaaaaaaaaaaaaaaaaaaaaaaaaaaaaaaaaaaaaaa"⟩,
        ["x"], none, none, [], none, false⟩
      ⟨.error "x", .error "y"⟩).1.skipped = none := by
  constructor
  · exact ((C6_extraction_skip_condition _ ⟨.error "x", .error "y"⟩ rfl).1 (by decide)).1
  · exact (C6_extraction_skip_condition _ ⟨.error "x", .error "y"⟩ rfl).2 (by decide)

/-- C10: an ensemble member whose structured call failed and whose text
response cannot be repaired into parseable JSON does not fail: it returns
the fixed permissive evaluation (`entry_level` variant: all gating booleans
permissive, `is_internship = false`; `job_level` variant: level
`"entry"`), with a reason string noting the parse error, and that vote
survives into the aggregation list like any other. -/
theorem C10_permissive_fallback_default (e : String)
    (rest : List (Except String VoteE)) :
    _call_llm_analyzer_E (.error e) (.ok none) =
      .ok { keyword_match := true, visa_sponsorship := true, entry_level := true,
            requires_phd := false, is_internship := false,
            reason := "JSON parse error - defaulting to pass" } ∧
    _parse_text_fallback_J none =
      { keyword_match := true, visa_sponsorship := true, job_level := "entry",
        requires_phd := false,
        reason := "JSON parse error - defaulting to pass" } ∧
    survivingResults (_call_llm_analyzer_E (.error e) (.ok none) :: rest) =
      _parse_text_fallback_E none :: survivingResults rest := by
  refine ⟨rfl, rfl, ?_⟩
  simp [survivingResults, _call_llm_analyzer_E, List.filterMap_cons]

/-- C3: in both variants, each boolean field of the majority-vote consensus
is `true` iff strictly more than half of the surviving votes have that
field `true`; at exactly half the vote resolves to `false`. -/
theorem C3_boolean_majority_vote (resultsE : List VoteE) (resultsJ : List VoteJ)
    (hE : resultsE ≠ []) (hJ : resultsJ ≠ []) :
    (((_majority_vote_evaluation_E resultsE).keyword_match = true ↔
        ((resultsE.countP (·.keyword_match) : ℚ) > (resultsE.length : ℚ) / 2)) ∧
     ((_majority_vote_evaluation_E resultsE).visa_sponsorship = true ↔
        ((resultsE.countP (·.visa_sponsorship) : ℚ) > (resultsE.length : ℚ) / 2)) ∧
     ((_majority_vote_evaluation_E resultsE).entry_level = true ↔
        ((resultsE.countP (·.entry_level) : ℚ) > (resultsE.length : ℚ) / 2)) ∧
     ((_majority_vote_evaluation_E resultsE).requires_phd = true ↔
        ((resultsE.countP (·.requires_phd) : ℚ) > (resultsE.length : ℚ) / 2)) ∧
     ((_majority_vote_evaluation_E resultsE).is_internship = true ↔
        ((resultsE.countP (·.is_internship) : ℚ) > (resultsE.length : ℚ) / 2))) ∧
    (((_majority_vote_evaluation_J resultsJ).keyword_match = true ↔
        ((resultsJ.countP (·.keyword_match) : ℚ) > (resultsJ.length : ℚ) / 2)) ∧
     ((_majority_vote_evaluation_J resultsJ).visa_sponsorship = true ↔
        ((resultsJ.countP (·.visa_sponsorship) : ℚ) > (resultsJ.length : ℚ) / 2)) ∧
     ((_majority_vote_evaluation_J resultsJ).requires_phd = true ↔
        ((resultsJ.countP (·.requires_phd) : ℚ) > (resultsJ.length : ℚ) / 2))) ∧
    (∀ t n : ℕ, 2 * t = n → majorityBool t n = false) := by
  refine ⟨⟨?_, ?_, ?_, ?_, ?_⟩, ⟨?_, ?_, ?_⟩, ?_⟩
  · exact majorityBool_iff_half _ _
  · exact majorityBool_iff_half _ _
  · exact majorityBool_iff_half _ _
  · exact majorityBool_iff_half _ _
  · exact majorityBool_iff_half _ _
  · exact majorityBool_iff_half _ _
  · exact majorityBool_iff_half _ _
  · exact majorityBool_iff_half _ _
  · intro t n h
    simp only [majorityBool, decide_eq_false_iff_not]
    omega

/-- C3 witness: 1 true vote out of 2 (exactly half) resolves to `false`. -/
theorem C3_boolean_majority_vote_witness : majorityBool 1 2 = false :=
  (C3_boolean_majority_vote [exVoteE] [exVoteJ] (by decide) (by decide)).2.2 1 2 rfl

/-- C2: whenever the deterministic rule engine resolves a field to a
non-`None` value, the final consensus evaluation carries exactly that value
for the field, whatever the surviving votes said — in the job-level variant
(consensus of `AnalyzerNode.__call__`) and in the entry-level variant (the
graph's ensemble node). -/
theorem C2_deterministic_overrides_win
    (summary : StructuredSummary) (search_terms : List String) (job : Job)
    (resultsJ : List VoteJ) (hJ : resultsJ ≠ [])
    (state : JobState) (rawE : List (Except String VoteE))
    (s2 : StructuredSummary) (hs : state.summary = some s2)
    (c : ConsensusE) (hc : (analyzerEnsembleNode state rawE).evaluation = some c) :
    ((∀ b, (_deterministic_eval_J summary search_terms).visa_sponsorship = some b →
        (analyzerNodeConsensus summary search_terms job resultsJ).visa_sponsorship = b) ∧
     (∀ b, (_deterministic_eval_J summary search_terms).requires_phd = some b →
        (analyzerNodeConsensus summary search_terms job resultsJ).requires_phd = b) ∧
     (∀ b, (_deterministic_eval_J summary search_terms).keyword_match = some b →
        (analyzerNodeConsensus summary search_terms job resultsJ).keyword_match = b) ∧
     (∀ l, (_deterministic_eval_J summary search_terms).job_level = some l →
        (analyzerNodeConsensus summary search_terms job resultsJ).job_level = l)) ∧
    ((∀ b, (_deterministic_eval_E s2 state.search_terms).visa_sponsorship = some b →
        c.visa_sponsorship = b) ∧
     (∀ b, (_deterministic_eval_E s2 state.search_terms).entry_level = some b →
        c.entry_level = b) ∧
     (∀ b, (_deterministic_eval_E s2 state.search_terms).is_internship = some b →
        c.is_internship = b) ∧
     (∀ b, (_deterministic_eval_E s2 state.search_terms).requires_phd = some b →
        c.requires_phd = b) ∧
     (∀ b, (_deterministic_eval_E s2 state.search_terms).keyword_match = some b →
        c.keyword_match = b)) := by
  constructor
  · refine ⟨?_, ?_, ?_, ?_⟩ <;> intro v hv <;>
      simp [analyzerNodeConsensus, applyOverridesJ, hv]
  · simp only [analyzerEnsembleNode, hs] at hc
    by_cases hemp : (survivingResults rawE).isEmpty
    · rw [if_pos hemp] at hc
      exact absurd hc (by simp)
    · rw [if_neg hemp] at hc
      simp only [Option.some.injEq] at hc
      refine ⟨?_, ?_, ?_, ?_, ?_⟩ <;> intro v hv <;>
        rw [← hc] <;> simp [applyOverridesE, hv]

/-- C2 witness: the spec's end-to-end example — a unanimous all-`true`
ensemble is overridden to `visa_sponsorship = false` and job level
`"senior"` by the deterministic rules. -/
theorem C2_deterministic_overrides_win_witness :
    (analyzerNodeConsensus exSummary ["software engineer"] exJob [exVoteJ]).visa_sponsorship
      = false ∧
    (analyzerNodeConsensus exSummary ["software engineer"] exJob [exVoteJ]).job_level
      = "senior" ∧
    exConsensusE.visa_sponsorship = false := by
  have h := C2_deterministic_overrides_win exSummary ["software engineer"] exJob
    [exVoteJ] (by decide) exStateE [.ok exVoteE] exSummary rfl exConsensusE (by decide)
  exact ⟨h.1.1 false (by decide), h.1.2.2.2 "senior" (by decide),
    h.2.1 false (by decide)⟩

/-- The retry loop never makes more attempts than it has fuel. -/
lemma retryLoop_attempts_le {α : Type} (att : Nat → Except String α) :
    ∀ fuel i, (retryLoop att i fuel).attemptsMade ≤ fuel := by
  intro fuel
  induction fuel with
  | zero => intro i; simp [retryLoop]
  | succ f ih =>
    intro i
    unfold retryLoop
    cases att i with
    | ok a => simp
    | error e =>
      by_cases h1 : isRateLimitError e = true
      · simp [h1]
      · by_cases h2 : (_is_retryable e && decide (i < _MAX_RETRIES)) = true
        · simp only [h1, h2, if_false, if_true, Bool.false_eq_true]
          have := ih (i + 1)
          omega
        · simp [h1, h2]

/-- Every attempt transiently failing exhausts the budget: three attempts,
delays 5 then 10 seconds, then a generic provider error. -/
lemma retry_exhausts {α : Type} (att : Nat → Except String α)
    (h : ∀ i, ∃ e, att i = .error e ∧ _is_retryable e = true ∧
      isRateLimitError e = false) :
    (retryLoop att 0 (_MAX_RETRIES + 1)).attemptsMade = 3 ∧
    (retryLoop att 0 (_MAX_RETRIES + 1)).delays = [5, 10] ∧
    ∃ m, (retryLoop att 0 (_MAX_RETRIES + 1)).result = .error (.apiFailed m) := by
  obtain ⟨e0, h0, h0r, h0n⟩ := h 0
  obtain ⟨e1, h1, h1r, h1n⟩ := h 1
  obtain ⟨e2, h2, h2r, h2n⟩ := h 2
  refine ⟨?_, ?_, ⟨"API request failed: " ++ e2, ?_⟩⟩ <;>
    simp [retryLoop, h0, h1, h2, h0r, h0n, h1r, h1n, h2r, h2n,
      _MAX_RETRIES, _RETRY_BASE_DELAY]

/-- A rate-limit signal on the first attempt fails immediately with the
distinguishable rate-limited error kind. -/
lemma rate_limit_immediate {α : Type} (att : Nat → Except String α) (e : String)
    (h0 : att 0 = .error e) (hr : isRateLimitError e = true) :
    retryLoop att 0 (_MAX_RETRIES + 1) = ⟨.error .rateLimited, 1, []⟩ := by
  simp [retryLoop, h0, hr]

/-- C8: for both `complete_structured` and `complete_text`, a call that
repeatedly hits a transient server error is attempted at most 3 times
(2 retries) with backoff delays of 5 then 10 seconds before a generic
provider error is raised; a rate-limit signal is never retried — the call
fails on the first attempt with the distinguishable rate-limited kind. -/
theorem C8_provider_retry_policy {α : Type}
    (attS : Nat → Except String α) (attT : Nat → Except String String)
    (hS : ∀ i, ∃ e, attS i = .error e ∧ _is_retryable e = true ∧
      isRateLimitError e = false)
    (hT : ∀ i, ∃ e, attT i = .error e ∧ _is_retryable e = true ∧
      isRateLimitError e = false)
    (attRS : Nat → Except String α) (attRT : Nat → Except String String)
    (eS eT : String)
    (hRS : attRS 0 = .error eS) (hrS : isRateLimitError eS = true)
    (hRT : attRT 0 = .error eT) (hrT : isRateLimitError eT = true) :
    ((complete_structured attS).attemptsMade = 3 ∧
     (complete_structured attS).delays = [5, 10] ∧
     ∃ m, (complete_structured attS).result = .error (.apiFailed m)) ∧
    ((complete_text attT).attemptsMade = 3 ∧
     (complete_text attT).delays = [5, 10] ∧
     ∃ m, (complete_text attT).result = .error (.apiFailed m)) ∧
    complete_structured attRS = ⟨.error .rateLimited, 1, []⟩ ∧
    complete_text attRT = ⟨.error .rateLimited, 1, []⟩ ∧
    (∀ att2 : Nat → Except String α,
      (complete_structured att2).attemptsMade ≤ _MAX_RETRIES + 1) :=
  ⟨retry_exhausts attS hS, retry_exhausts attT hT,
   rate_limit_immediate attRS eS hRS hrS,
   rate_limit_immediate attRT eT hRT hrT,
   fun att2 => retryLoop_attempts_le att2 _ 0⟩

/-- C8 witness: a persistent 502 is attempted 3 times with delays 5 and 10;
a 429 fails after exactly one attempt. -/
theorem C8_provider_retry_policy_witness :
    (complete_text (fun _ => .error "502 Bad Gateway")).attemptsMade = 3 ∧
    (complete_text (fun _ => .error "502 Bad Gateway")).delays = [5, 10] ∧
    complete_text (fun _ => .error "Error code: 429") =
      ⟨.error .rateLimited, 1, []⟩ := by
  have h := C8_provider_retry_policy (α := String)
    (fun _ => .error "502 Bad Gateway") (fun _ => .error "502 Bad Gateway")
    (fun _ => ⟨"502 Bad Gateway", rfl, by decide, by decide⟩)
    (fun _ => ⟨"502 Bad Gateway", rfl, by decide, by decide⟩)
    (fun _ => .error "Error code: 429") (fun _ => .error "Error code: 429")
    "Error code: 429" "Error code: 429" rfl (by decide) rfl (by decide)
  exact ⟨h.2.1.1, h.2.1.2.1, h.2.2.2.1⟩

/-- No survivors iff every gathered outcome is an exception. -/
lemma survivingResults_nil_iff (raw : List (Except String VoteE)) :
    survivingResults raw = [] ↔ ∀ r ∈ raw, ∀ v : VoteE, r ≠ .ok v := by
  rw [survivingResults, List.filterMap_eq_nil_iff]
  constructor
  · intro h r hr v hv
    have := h r hr
    rw [hv] at this
    simp at this
  · intro h r hr
    cases r with
    | ok v => exact absurd rfl (h _ hr v)
    | error e => rfl

/-- C9: members that raise are excluded from aggregation — prepending a
failed member leaves the ensemble node's output unchanged — and the node
reports a hard per-posting error with no evaluation iff every member
failed. -/
theorem C9_ensemble_fault_tolerance (state : JobState) (s : StructuredSummary)
    (raw : List (Except String VoteE)) (e : String)
    (h : state.summary = some s) :
    analyzerEnsembleNode state (.error e :: raw) = analyzerEnsembleNode state raw ∧
    (((analyzerEnsembleNode state raw).evaluation = none ∧
      ((analyzerEnsembleNode state raw).error).isSome = true) ↔
      ∀ r ∈ raw, ∀ v : VoteE, r ≠ .ok v) := by
  have hsur : survivingResults (.error e :: raw) = survivingResults raw := by
    simp [survivingResults, List.filterMap_cons]
  constructor
  · simp only [analyzerEnsembleNode, h, hsur]
  · rw [← survivingResults_nil_iff]
    simp only [analyzerEnsembleNode, h]
    by_cases hemp : (survivingResults raw).isEmpty
    · rw [if_pos hemp]
      rw [List.isEmpty_iff] at hemp
      simp [hemp]
    · rw [if_neg hemp]
      rw [List.isEmpty_iff] at hemp
      simp [hemp]

/-- C9 witness: with one failed and one surviving member, dropping the
failed member changes nothing; with no members, "all failed" holds. -/
theorem C9_ensemble_fault_tolerance_witness :
    analyzerEnsembleNode exStateE [.error "boom", .ok exVoteE] =
      analyzerEnsembleNode exStateE [.ok exVoteE] ∧
    (analyzerEnsembleNode exStateE []).error.isSome = true := by
  have h1 := C9_ensemble_fault_tolerance exStateE exSummary [.ok exVoteE] "boom" rfl
  have h2 := C9_ensemble_fault_tolerance exStateE exSummary [] "unused" rfl
  exact ⟨h1.1, (h2.2.mpr (by simp)).2⟩

/-- C4: in the job-level variant, over votes drawn from the ordered
enumeration, the consensus job level is a level of maximum vote count, and
any level tied at the maximum has a rank no smaller than the chosen one
(ties break toward the most junior level). -/
theorem C4_job_level_plurality (results : List VoteJ)
    (hne : results ≠ [])
    (hval : ∀ r ∈ results, r.job_level ∈ JOB_LEVELS) :
    (_majority_vote_evaluation_J results).job_level = majorityJobLevel results ∧
    majorityJobLevel results ∈ JOB_LEVELS ∧
    (∀ l ∈ JOB_LEVELS, levelCount results l ≤
      levelCount results (majorityJobLevel results)) ∧
    (∀ l ∈ JOB_LEVELS, levelCount results l =
      levelCount results (majorityJobLevel results) →
      levelRank (majorityJobLevel results) ≤ levelRank l) := by
  refine ⟨rfl, ?_⟩
  have hguard : results.any (fun r => JOB_LEVELS.contains r.job_level) = true := by
    obtain ⟨r0, rs, rfl⟩ := List.exists_cons_of_ne_nil hne
    rw [List.any_eq_true]
    refine ⟨r0, by simp, ?_⟩
    have hm := hval r0 (by simp)
    simpa using hm
  unfold majorityJobLevel
  rw [if_pos hguard]
  simp only [JOB_LEVELS, List.foldl_cons, List.foldl_nil]
  rw [if_neg (lt_irrefl _)]
  split_ifs <;>
    refine ⟨by decide, fun l hl => ?_, fun l hl heq => ?_⟩ <;>
    simp only [JOB_LEVELS, List.mem_cons, List.not_mem_nil, or_false] at hl <;>
    rcases hl with rfl | rfl | rfl | rfl | rfl <;>
    first
    | omega
    | decide

/-- C4 witness: a junior/mid tie resolves to junior. -/
theorem C4_job_level_plurality_witness :
    majorityJobLevel [⟨true, true, "mid", false, "a"⟩,
      ⟨true, true, "junior", false, "b"⟩] = "junior" := by
  have h := C4_job_level_plurality
    [⟨true, true, "mid", false, "a"⟩, ⟨true, true, "junior", false, "b"⟩]
    (by decide) (by decide)
  have hmem := h.2.1
  have hmax := h.2.2.1 "junior" (by decide)
  have htie := h.2.2.2 "mid" (by decide)
  revert hmem hmax htie
  decide

/-- C1 (counterexample): the skip branch sets `skipped = True` together
with a non-null descriptive `error` in the final pipeline state, so the
three terminal conditions are not mutually exclusive as claimed. -/
theorem C1_counterexample :
    (runSingleJob ⟨some "T", some "C", some "short"⟩ ["software engineer"] []
      ⟨.error "x", .error "y"⟩ []).skipped = true ∧
    (runSingleJob ⟨some "T", some "C", some "short"⟩ ["software engineer"] []
      ⟨.error "x", .error "y"⟩ []).error = some "Description too short (5 chars)" := by
  decide

/-- C1 (amended): in every final pipeline state, an evaluation excludes
both a non-null error and the skipped flag, and a skipped state always
carries a non-null (descriptive) error and no evaluation. -/
theorem C1_terminal_outcome_exclusivity (job : Job) (ts fb : List String)
    (so : SummarizerOracle) (raw : List (Except String VoteE)) :
    ((runSingleJob job ts fb so raw).evaluation.isSome = true →
      (runSingleJob job ts fb so raw).error = none ∧
      (runSingleJob job ts fb so raw).skipped = false) ∧
    ((runSingleJob job ts fb so raw).skipped = true →
      ((runSingleJob job ts fb so raw).error).isSome = true ∧
      (runSingleJob job ts fb so raw).evaluation = none) := by
  obtain ⟨st, fbk⟩ := so
  by_cases hshort : (job.description.getD "" == "" ||
      decide ((job.description.getD "").length < 50)) = true
  · -- skip branch: skipped and error both set, no evaluation
    have hrun : runSingleJob job ts fb ⟨st, fbk⟩ raw =
        { job := job, search_terms := ts, summary := none, evaluation := none,
          accumulated_feedback := fb,
          error := some ("Description too short (" ++
            toString (job.description.getD "").length ++ " chars)"),
          skipped := true } := by
      simp [runSingleJob, summarizer_node, hshort, applyUpdate, routeToEnd]
    rw [hrun]
    simp
  · cases st with
    | ok s =>
      have hrun : runSingleJob job ts fb ⟨.ok s, fbk⟩ raw =
          applyUpdate
            { job := job, search_terms := ts, summary := some s, evaluation := none,
              accumulated_feedback := fb, error := none, skipped := false }
            (analyzerEnsembleNode
              { job := job, search_terms := ts, summary := some s, evaluation := none,
                accumulated_feedback := fb, error := none, skipped := false } raw) := by
        simp [runSingleJob, summarizer_node, hshort, applyUpdate, routeToEnd, errorTruthy]
      rw [hrun]
      by_cases hemp : (survivingResults raw).isEmpty
      · simp [analyzerEnsembleNode, hemp, applyUpdate]
      · simp [analyzerEnsembleNode, hemp, applyUpdate]
    | error e1 =>
      cases fbk with
      | ok s =>
        have hrun : runSingleJob job ts fb ⟨.error e1, .ok s⟩ raw =
            applyUpdate
              { job := job, search_terms := ts, summary := some s, evaluation := none,
                accumulated_feedback := fb, error := none, skipped := false }
              (analyzerEnsembleNode
                { job := job, search_terms := ts, summary := some s, evaluation := none,
                  accumulated_feedback := fb, error := none, skipped := false } raw) := by
          simp [runSingleJob, summarizer_node, hshort, applyUpdate, routeToEnd, errorTruthy]
        rw [hrun]
        by_cases hemp : (survivingResults raw).isEmpty
        · simp [analyzerEnsembleNode, hemp, applyUpdate]
        · simp [analyzerEnsembleNode, hemp, applyUpdate]
      | error e2 =>
        by_cases he2 : (e2 != "") = true
        · -- truthy summarizer error with no summary: route to END
          have hrun : runSingleJob job ts fb ⟨.error e1, .error e2⟩ raw =
              { job := job, search_terms := ts, summary := none, evaluation := none,
                accumulated_feedback := fb, error := some e2, skipped := false } := by
            simp [runSingleJob, summarizer_node, hshort, applyUpdate, routeToEnd,
              errorTruthy, he2]
          rw [hrun]
          simp
        · -- falsy (empty) error string: routed to the ensemble, which finds
          -- no summary and reports its own error
          have hrun : runSingleJob job ts fb ⟨.error e1, .error e2⟩ raw =
              { job := job, search_terms := ts, summary := none, evaluation := none,
                accumulated_feedback := fb,
                error := some "No summary available for analysis",
                skipped := false } := by
            simp [runSingleJob, summarizer_node, hshort, applyUpdate, routeToEnd,
              errorTruthy, he2, analyzerEnsembleNode]
          rw [hrun]
          simp

end JobScraper
